import Mathlib

/-!
Shallow embedding of `src/amazon_search.py` (amazon-niche-finder) and proofs
about its pipeline: suggestion fetching, result-count extraction, niche
discovery, reporting and top-level control flow.

Conventions of the embedding:
* Python integers are `Int` where the program can produce `-1` (result
  counts), `Nat` for configuration constants.
* A failing HTTP request (`requests` raising, or `raise_for_status` on a
  bad status) and a failing JSON parse are an `Except.error`; a successful
  response body is the `Except.ok` payload.
* The suggestions JSON body is modelled structurally as `JValue`; the
  search page HTML as a list of elements carrying tag, attributes and text.
* Side effects that do not influence the claimed values (logging, printing,
  `time.sleep`) are dropped; the sleep's randomness never feeds into any
  returned value.
-/

namespace AmazonSearch

/-- Configuration constants from the top of `amazon_search.py`. -/
def MAX_RETRIES : Nat := 3

/-- Backoff factor handed to the `Retry` strategy. -/
def BACKOFF_FACTOR : Nat := 1

/-- Status codes for which the session retries. -/
def RETRY_STATUS_CODES : List Nat := [429, 500, 502, 503, 504]

/-- Per-request timeout in seconds. -/
def REQUEST_TIMEOUT : Nat := 10

/-- Minimum inter-request delay in seconds. -/
def MIN_DELAY : Nat := 2

/-- Maximum inter-request delay in seconds. -/
def MAX_DELAY : Nat := 7

/-- Default competition threshold. -/
def LOW_COMPETITION_THRESHOLD : Int := 2000

/-! ### Reporting layer (`__main__`, lines 196-208)

`low_comp = [r for r in niche_results if 0 < r[1] < args.threshold]` and
`sorted(low_comp, key=lambda x: x[1])`.  Python's `sorted` is a stable
sort by the key; `List.mergeSort` with the corresponding `≤` test models
it. -/

/-- The list comprehension filtering low-competition samples:
`[r for r in niche_results if 0 < r[1] < args.threshold]`. -/
def lowCompFilter (niche_results : List (String × Int)) (threshold : Int) :
    List (String × Int) :=
  niche_results.filter (fun r => 0 < r.2 && r.2 < threshold)

/-- The reported samples: `sorted(low_comp, key=lambda x: x[1])`. -/
def reportList (niche_results : List (String × Int)) (threshold : Int) :
    List (String × Int) :=
  (lowCompFilter niche_results threshold).mergeSort (fun a b => decide (a.2 ≤ b.2))

/-! ### Niche discovery orchestrator (`discover_niches`, lines 162-178)

The suggestion list is the value returned by `get_suggestions`; the result
count fetched for a keyword is abstracted as a function
`fetchCount : String → Int` (one call of `get_result_count` per keyword).
The loop body sleeps, fetches the count, logs, and appends the sample; the
embedding additionally returns the trace of keywords whose counts were
fetched, so that "returns immediately without fetching" is expressible. -/

/-- The `for suggestion in suggestions:` loop of `discover_niches`:
first component the accumulated `results` list, second component the trace
of keywords passed to `get_result_count`. -/
def nicheLoop (fetchCount : String → Int) :
    List String → List (String × Int) × List String
  | [] => ([], [])
  | s :: rest =>
    let c := fetchCount s
    let r := nicheLoop fetchCount rest
    ((s, c) :: r.1, s :: r.2)

/-- `discover_niches`: `if not suggestions: return []`, else run the loop. -/
def discover_niches (fetchCount : String → Int) (suggestions : List String) :
    List (String × Int) × List String :=
  if suggestions.isEmpty then ([], [])
  else nicheLoop fetchCount suggestions

theorem nicheLoop_eq (fetchCount : String → Int) (l : List String) :
    nicheLoop fetchCount l = (l.map (fun s => (s, fetchCount s)), l) := by
  induction l with
  | nil => rfl
  | cons s rest ih => simp [nicheLoop, ih]

/-- C2: for a non-empty suggestion list, `discover_niches` yields exactly one
sample per suggestion in the same order (so the first projections are the
suggestions themselves); for an empty suggestion list it returns the empty
list and its trace shows no count was fetched. -/
theorem discover_niches_one_sample_each (fetchCount : String → Int)
    (suggestions : List String) :
    (suggestions ≠ [] →
      (discover_niches fetchCount suggestions).1 =
        suggestions.map (fun s => (s, fetchCount s)) ∧
      ((discover_niches fetchCount suggestions).1).map Prod.fst = suggestions ∧
      (discover_niches fetchCount suggestions).2 = suggestions) ∧
    discover_niches fetchCount [] = ([], []) := by
  constructor
  · intro h
    have hne : suggestions.isEmpty = false := by
      cases suggestions with
      | nil => exact absurd rfl h
      | cons a l => rfl
    refine ⟨?_, ?_, ?_⟩ <;> simp [discover_niches, hne, nicheLoop_eq]
    exact List.map_id suggestions
  · rfl

/-- Witness for C2 at a concrete input. -/
theorem discover_niches_one_sample_each_witness :
    (["a", "b"] : List String) ≠ [] ∧
    (discover_niches (fun _ => (7 : Int)) ["a", "b"]).1 = [("a", 7), ("b", 7)] := by
  refine ⟨by simp, ?_⟩
  have h := (discover_niches_one_sample_each (fun _ => (7 : Int)) ["a", "b"]).1 (by simp)
  simpa using h.1

/-- C1: a sample is in the report iff it is among the input samples and its
count lies strictly between `0` and the threshold; the report is sorted
non-decreasing by count; with threshold `0` the report is empty for every
input.  (Samples with count `-1` or `0` fail `0 < count`, hence never
appear.) -/
theorem reportList_filter_and_sorted (niche_results : List (String × Int))
    (threshold : Int) :
    (∀ s : String × Int,
      s ∈ reportList niche_results threshold ↔
        (s ∈ niche_results ∧ 0 < s.2 ∧ s.2 < threshold)) ∧
    (reportList niche_results threshold).Pairwise (fun a b => a.2 ≤ b.2) ∧
    reportList niche_results 0 = [] := by
  refine ⟨?_, ?_, ?_⟩
  · intro s
    simp [reportList, lowCompFilter, List.mem_filter, and_assoc]
  · have h1 : ∀ a b c : String × Int,
        decide (a.2 ≤ b.2) = true → decide (b.2 ≤ c.2) = true →
        decide (a.2 ≤ c.2) = true := by
      intro a b c hab hbc
      simp only [decide_eq_true_eq] at *
      omega
    have h2 : ∀ a b : String × Int,
        (decide (a.2 ≤ b.2) || decide (b.2 ≤ a.2)) = true := by
      intro a b
      simp only [Bool.or_eq_true, decide_eq_true_eq]
      omega
    have hs := List.sorted_mergeSort h1 h2 (lowCompFilter niche_results threshold)
    exact hs.imp (fun h => by simpa using h)
  · have : lowCompFilter niche_results 0 = [] := by
      simp only [lowCompFilter, List.filter_eq_nil_iff]
      intro a _
      simp only [Bool.and_eq_true, decide_eq_true_eq, not_and]
      omega
    simp [reportList, this]

/-! ### Suggestions JSON (`get_suggestions`, lines 71-119)

`response.json()` is modelled structurally.  A network/HTTP failure
(`requests.RequestException`, including `raise_for_status`) or a JSON parse
failure is the `Except.error` case of the response argument; both are
caught in the source and produce `[]`. -/

/-- Structural model of a parsed JSON value. -/
inductive JValue where
  | null
  | bool (b : Bool)
  | num (n : Int)
  | str (s : String)
  | arr (items : List JValue)
  | obj (fields : List (String × JValue))

/-- Python dict lookup `d[k]` as an `Option` (first binding wins; Python
dict literals cannot repeat keys, so the generality is harmless). -/
def jlookup (fields : List (String × JValue)) (k : String) : Option JValue :=
  (fields.find? (fun p => p.1 == k)).map Prod.snd

/-- Python `el == "value"` for a JSON element (only the string compares
equal). -/
def JValue.eqValueStr : JValue → Bool
  | .str s => s == "value"
  | _ => false

/-- Substring test over character lists: Python `needle in hay` for
strings. -/
def hasSubstr (needle : List Char) : List Char → Bool
  | [] => needle.isEmpty
  | c :: rest => needle.isPrefixOf (c :: rest) || hasSubstr needle rest

/-- Python `"value" in item`: key test on dicts, substring test on strings,
membership test on lists; `TypeError` on the remaining JSON values. -/
def pyHasValue : JValue → Except String Bool
  | .obj fields => .ok (fields.any (fun p => p.1 == "value"))
  | .str s => .ok (hasSubstr "value".toList s.toList)
  | .arr items => .ok (items.any JValue.eqValueStr)
  | _ => .error "TypeError: argument is not iterable"

/-- Python `item["value"]`: dict lookup (`KeyError` when the key is absent),
`TypeError` on every other JSON value. -/
def pySubscriptValue : JValue → Except String JValue
  | .obj fields =>
    match jlookup fields "value" with
    | some v => .ok v
    | none => .error "KeyError: value"
  | _ => .error "TypeError: value is not a valid subscript"

/-- The comprehension
`[item["value"] for item in data["suggestions"] if "value" in item]`;
an `Except.error` when evaluating it raises. -/
def valuesOfSuggestions : List JValue → Except String (List JValue)
  | [] => .ok []
  | item :: rest =>
    match pyHasValue item with
    | .error e => .error e
    | .ok false => valuesOfSuggestions rest
    | .ok true =>
      match pySubscriptValue item with
      | .error e => .error e
      | .ok v =>
        match valuesOfSuggestions rest with
        | .error e => .error e
        | .ok vs => .ok (v :: vs)

/-- `get_suggestions`, given the outcome of the HTTP fetch plus JSON parse.
The source returns `[]` on: a fetch/parse error; a non-dict body; a dict
without a "suggestions" key; and any exception inside the comprehension
(caught by the blanket `except Exception`).  A "suggestions" value that is
not a list also always ends as `[]` in Python: iterating a string yields
single-character strings, each failing the `"value" in item` substring
test; iterating a dict yields its keys and either raises a `TypeError` at
`item["value"]` or selects nothing; iterating any other JSON value raises
a `TypeError` which the blanket handler turns into `[]`. -/
def get_suggestions (resp : Except String JValue) : List JValue :=
  match resp with
  | .error _ => []
  | .ok (.obj fields) =>
    match jlookup fields "suggestions" with
    | some (.arr items) =>
      match valuesOfSuggestions items with
      | .ok vs => vs
      | .error _ => []
    | some _ => []
    | none => []
  | .ok _ => []

theorem any_key_eq_isSome (fields : List (String × JValue)) (k : String) :
    fields.any (fun p => p.1 == k) = (jlookup fields k).isSome := by
  induction fields with
  | nil => rfl
  | cons p rest ih =>
    cases h : (p.1 == k) with
    | true => simp [jlookup, List.find?_cons, h]
    | false =>
      simp only [List.any_cons, h, Bool.false_or]
      simpa [jlookup, List.find?_cons, h] using ih

theorem valuesOfSuggestions_objs (itemFields : List (List (String × JValue))) :
    valuesOfSuggestions (itemFields.map JValue.obj) =
      .ok (itemFields.filterMap (fun fs => jlookup fs "value")) := by
  induction itemFields with
  | nil => rfl
  | cons fs rest ih =>
    simp only [List.map_cons, List.filterMap_cons]
    cases hj : jlookup fs "value" with
    | none =>
      have hb : fs.any (fun p => p.1 == "value") = false := by
        rw [any_key_eq_isSome, hj]; rfl
      simp [valuesOfSuggestions, pyHasValue, hb, ih]
    | some v =>
      have hb : fs.any (fun p => p.1 == "value") = true := by
        rw [any_key_eq_isSome, hj]; rfl
      simp [valuesOfSuggestions, pyHasValue, pySubscriptValue, hb, hj, ih]

theorem filterMap_eq_of_map_eq_some {α β : Type} (g : α → Option β) :
    ∀ (l : List α) (vals : List β), l.map g = vals.map some → l.filterMap g = vals := by
  intro l
  induction l with
  | nil =>
    intro vals h
    cases vals with
    | nil => rfl
    | cons v vs => simp at h
  | cons a rest ih =>
    intro vals h
    cases vals with
    | nil => simp at h
    | cons v vs =>
      simp only [List.map_cons, List.cons.injEq] at h
      simp [List.filterMap_cons, h.1, ih vs h.2]

/-- C5: `get_suggestions` never raises: a network/HTTP/JSON-parse failure
yields `[]`; a non-dict body yields `[]`; a dict without a "suggestions"
key yields `[]`; a "suggestions" value that is not a list yields `[]`; and
on a well-formed response (a "suggestions" list of objects whose "value"
lookups are exactly `vals`) it returns `vals` in response order. -/
theorem get_suggestions_degrades_gracefully :
    (∀ e, get_suggestions (.error e) = []) ∧
    (∀ data : JValue, (∀ fields, data ≠ JValue.obj fields) →
      get_suggestions (.ok data) = []) ∧
    (∀ fields, jlookup fields "suggestions" = none →
      get_suggestions (.ok (.obj fields)) = []) ∧
    (∀ fields v, jlookup fields "suggestions" = some v →
      (∀ items, v ≠ JValue.arr items) → get_suggestions (.ok (.obj fields)) = []) ∧
    (∀ (fields : List (String × JValue))
      (itemFields : List (List (String × JValue))) (vals : List JValue),
      jlookup fields "suggestions" = some (.arr (itemFields.map JValue.obj)) →
      itemFields.map (fun fs => jlookup fs "value") = vals.map some →
      get_suggestions (.ok (.obj fields)) = vals) := by
  refine ⟨fun e => rfl, ?_, ?_, ?_, ?_⟩
  · intro data hd
    cases data with
    | obj fields => exact absurd rfl (hd fields)
    | null => rfl
    | bool b => rfl
    | num n => rfl
    | str s => rfl
    | arr items => rfl
  · intro fields h
    simp [get_suggestions, h]
  · intro fields v h hv
    cases v with
    | arr items => exact absurd rfl (hv items)
    | null => simp [get_suggestions, h]
    | bool b => simp [get_suggestions, h]
    | num n => simp [get_suggestions, h]
    | str s => simp [get_suggestions, h]
    | obj f2 => simp [get_suggestions, h]
  · intro fields itemFields vals h hv
    simp [get_suggestions, h, valuesOfSuggestions_objs,
      filterMap_eq_of_map_eq_some _ itemFields vals hv]

/-- Witness for C5 at concrete inputs. -/
theorem get_suggestions_degrades_gracefully_witness :
    get_suggestions (.error "connection reset") = [] ∧
    get_suggestions (.ok (.obj [("suggestions", .arr
      [.obj [("value", .str "coloring book for adults")],
       .obj [("value", .str "coloring book for kids")]])])) =
      [.str "coloring book for adults", .str "coloring book for kids"] := by
  constructor
  · exact get_suggestions_degrades_gracefully.1 "connection reset"
  · exact get_suggestions_degrades_gracefully.2.2.2.2
      [("suggestions", .arr
        [.obj [("value", .str "coloring book for adults")],
         .obj [("value", .str "coloring book for kids")]])]
      [[("value", .str "coloring book for adults")],
       [("value", .str "coloring book for kids")]]
      [.str "coloring book for adults", .str "coloring book for kids"]
      rfl rfl

/-- C10: when the response is a dict whose "suggestions" entry is a list of
objects, the comprehension silently skips every item without a "value" key:
the result is exactly the "value" fields of the items that have one, in
order. -/
theorem get_suggestions_skips_items_without_value
    (fields : List (String × JValue)) (itemFields : List (List (String × JValue)))
    (h : jlookup fields "suggestions" = some (.arr (itemFields.map JValue.obj))) :
    get_suggestions (.ok (.obj fields)) =
      itemFields.filterMap (fun fs => jlookup fs "value") := by
  simp [get_suggestions, h, valuesOfSuggestions_objs]

/-- Witness for C10: two items, one lacking "value"; the output has the one
extracted value, strictly shorter than the item list. -/
theorem get_suggestions_skips_items_without_value_witness :
    get_suggestions (.ok (.obj [("suggestions", .arr
      [.obj [("value", .str "a")], .obj [("refTag", .null)]])])) = [.str "a"] := by
  have h := get_suggestions_skips_items_without_value
    [("suggestions", .arr [.obj [("value", .str "a")], .obj [("refTag", .null)]])]
    [[("value", .str "a")], [("refTag", .null)]] rfl
  simpa using h

/-! ### Search page HTML and result-count extraction (`get_result_count`,
lines 122-159) -/

/-- An HTML element as far as the extraction inspects it: tag name,
attributes, and the text `get_text()` returns.  BeautifulSoup's
`soup.find(tag, attrs)` returns the first element in document order whose
tag equals `tag` and whose attributes satisfy every filter entry; the
attribute test is modelled as containment of the exact (name, value)
pair. -/
structure HtmlElement where
  tag : String
  attrs : List (String × String)
  text : String
deriving DecidableEq

/-- A parsed page: its elements in document order. -/
abbrev HtmlPage := List HtmlElement

/-- `soup.find(tag, attrs)`. -/
def findFirst (tag : String) (attrs : List (String × String)) (page : HtmlPage) :
    Option HtmlElement :=
  page.find? (fun e => e.tag == tag && attrs.all (fun kv => e.attrs.contains kv))

/-- The selector list of `get_result_count`, in source order. -/
def selectors : List (String × List (String × String)) :=
  [("span", [("data-component-type", "s-result-info-bar")]),
   ("div", [("class", "sg-col-inner")]),
   ("div", [("class", "a-section a-spacing-small a-spacing-top-small")])]

/-- Python regex `\d` (ASCII digits). -/
def isReDigit (c : Char) : Bool := '0' ≤ c && c ≤ '9'

/-- Python regex `\s` (ASCII whitespace). -/
def isReSpace (c : Char) : Bool :=
  c == ' ' || c == '\t' || c == '\n' || c == '\r' || c == '\x0b' || c == '\x0c'

/-- A `[\d,]` character. -/
def isDigitComma (c : Char) : Bool := isReDigit c || c == ','

/-- Matching the regex `(\d[\d,]*)\s+word` at the start of `s`, returning
the captured group.  Because `[\d,]`, `\s` and the word's first letter are
pairwise disjoint character classes, the greedy runs never backtrack, so
maximal runs give exactly Python's semantics. -/
def matchNumWordAt (w : List Char) (s : List Char) : Option (List Char) :=
  match s with
  | [] => none
  | c :: rest =>
    if isReDigit c then
      let run := rest.takeWhile isDigitComma
      let rest1 := rest.dropWhile isDigitComma
      let sp := rest1.takeWhile isReSpace
      let rest2 := rest1.dropWhile isReSpace
      if !sp.isEmpty && w.isPrefixOf rest2 then some (c :: run) else none
    else none

/-- Matching the regex `over\s+(\d[\d,]*)` at the start of `s`. -/
def matchOverNumAt (s : List Char) : Option (List Char) :=
  if ("over".toList).isPrefixOf s then
    let sp := (s.drop 4).takeWhile isReSpace
    let rest1 := (s.drop 4).dropWhile isReSpace
    if !sp.isEmpty then
      match rest1 with
      | [] => none
      | d :: tl => if isReDigit d then some (d :: tl.takeWhile isDigitComma) else none
    else none
  else none

/-- `re.search`: try the pattern at every start position left to right; the
leftmost match wins. -/
def reSearch (matchAt : List Char → Option (List Char)) : List Char → Option (List Char)
  | [] => matchAt []
  | c :: rest =>
    match matchAt (c :: rest) with
    | some g => some g
    | none => reSearch matchAt rest

/-- `int(...)` on a digit string. -/
def natOfDigits (ds : List Char) : Nat :=
  ds.foldl (fun a c => a * 10 + (c.toNat - Char.toNat '0')) 0

/-- `int(match.group(1).replace(',', ''))`: the captured group starts with
a digit and contains only digits and commas, so stripping commas leaves a
digit string. -/
def parseGroup (g : List Char) : Nat :=
  natOfDigits (g.filter (fun c => c != ','))

/-- The `patterns` loop of `get_result_count`: its four regexes in source
order, first match returned immediately. -/
def applyPatterns (text : List Char) : Option Nat :=
  match reSearch (matchNumWordAt "results".toList) text with
  | some g => some (parseGroup g)
  | none =>
    match reSearch (matchNumWordAt "Results".toList) text with
    | some g => some (parseGroup g)
    | none =>
      match reSearch matchOverNumAt text with
      | some g => some (parseGroup g)
      | none =>
        match reSearch (matchNumWordAt "product".toList) text with
        | some g => some (parseGroup g)
        | none => none

/-- The `for tag, attrs in selectors:` loop.  When a selector matches an
element whose text yields no pattern match, the loop moves on to the next
selector: the source has no `return -1` inside the `if result_text:`
branch, only after the whole loop. -/
def selectorLoop (page : HtmlPage) :
    List (String × List (String × String)) → Int
  | [] => -1
  | sel :: rest =>
    match findFirst sel.1 sel.2 page with
    | some e =>
      match applyPatterns e.text.toList with
      | some n => (n : Int)
      | none => selectorLoop page rest
    | none => selectorLoop page rest

/-- The extraction half of `get_result_count` on a fetched, parsed page. -/
def extract_result_count (page : HtmlPage) : Int :=
  selectorLoop page selectors

/-- `get_result_count`: a request/HTTP failure is caught and yields `-1`;
otherwise the page is parsed and scanned. -/
def get_result_count (resp : Except String HtmlPage) : Int :=
  match resp with
  | .error _ => -1
  | .ok page => extract_result_count page

theorem selectorLoop_sentinel_or_nonneg (page : HtmlPage) :
    ∀ sels, selectorLoop page sels = -1 ∨ 0 ≤ selectorLoop page sels := by
  intro sels
  induction sels with
  | nil => exact Or.inl rfl
  | cons sel rest ih =>
    cases hf : findFirst sel.1 sel.2 page with
    | none => simpa [selectorLoop, hf] using ih
    | some e =>
      cases hp : applyPatterns e.text.data with
      | none => simpa [selectorLoop, hf, hp] using ih
      | some n =>
        have hv : selectorLoop page (sel :: rest) = (n : Int) := by
          simp [selectorLoop, hf, hp]
        rw [hv]
        exact Or.inr (Int.natCast_nonneg n)

/-- C4: `get_result_count` always returns `-1` or a non-negative integer,
and every failed request (network/HTTP error, caught in the source)
collapses to the `-1` sentinel; the embedding is a total function, so no
exception escapes. -/
theorem get_result_count_sentinel_or_nonneg (resp : Except String HtmlPage) :
    (get_result_count resp = -1 ∨ 0 ≤ get_result_count resp) ∧
    (∀ e, get_result_count (.error e) = -1) := by
  constructor
  · cases resp with
    | error e => exact Or.inl rfl
    | ok page => exact selectorLoop_sentinel_or_nonneg page selectors
  · intro e
    rfl

/-- A page whose first selector matches an element with no extractable
number while the second selector's element yields one. -/
def pageFirstSelectorBarren : HtmlPage :=
  [⟨"span", [("data-component-type", "s-result-info-bar")],
    "Try checking your spelling"⟩,
   ⟨"div", [("class", "sg-col-inner")], "5 results"⟩]

/-- C3 counterexample: on `pageFirstSelectorBarren` the first selector
matches an element whose text yields no pattern match, yet the extraction
returns `5` from the second selector's element instead of the `-1` the
claim predicts: the loop does fall through to later selectors. -/
theorem extract_result_count_falls_through :
    findFirst "span" [("data-component-type", "s-result-info-bar")]
        pageFirstSelectorBarren =
      some ⟨"span", [("data-component-type", "s-result-info-bar")],
        "Try checking your spelling"⟩ ∧
    applyPatterns ("Try checking your spelling".toList) = none ∧
    extract_result_count pageFirstSelectorBarren = 5 ∧
    extract_result_count pageFirstSelectorBarren ≠ -1 := by
  exact ⟨rfl, rfl, rfl, by decide⟩

theorem selectorLoop_eq_first_yield (page : HtmlPage)
    (sels : List (String × List (String × String))) :
    selectorLoop page sels =
      (match (sels.filterMap (fun sel => (findFirst sel.1 sel.2 page).bind
          (fun e => applyPatterns e.text.toList))).head? with
        | some n => (n : Int)
        | none => -1) := by
  induction sels with
  | nil => rfl
  | cons sel rest ih =>
    cases hf : findFirst sel.1 sel.2 page with
    | none => simpa [selectorLoop, hf, List.filterMap_cons] using ih
    | some e =>
      cases hp : applyPatterns e.text.data with
      | none => simpa [selectorLoop, hf, hp, List.filterMap_cons] using ih
      | some n => simp [selectorLoop, hf, hp, List.filterMap_cons]

/-- C3 amended: selectors are tried in source order and only the first
element matching a selector is inspected; its text goes through the
ordered pattern list and a first match is returned immediately; but a
matched element whose text yields no number lets the loop fall through to
the later selectors, so the result is the first number any selector's
matched element yields, and `-1` only when no selector's element yields
one. -/
theorem extract_result_count_first_selector_yield (page : HtmlPage) :
    extract_result_count page =
      (match (selectors.filterMap (fun sel => (findFirst sel.1 sel.2 page).bind
          (fun e => applyPatterns e.text.toList))).head? with
        | some n => (n : Int)
        | none => -1) :=
  selectorLoop_eq_first_yield page selectors

/-- C6: result-count extraction is a deterministic function of the parsed
page: two extraction runs over the same page text agree (the randomized
inter-request sleep in `discover_niches` never feeds into extraction). -/
theorem extract_result_count_deterministic (page : HtmlPage) (r1 r2 : Int)
    (h1 : r1 = extract_result_count page) (h2 : r2 = extract_result_count page) :
    r1 = r2 :=
  h1.trans h2.symm

/-- Witness for C6 on a concrete page. -/
theorem extract_result_count_deterministic_witness : (1234 : Int) = 1234 :=
  extract_result_count_deterministic
    [⟨"span", [("data-component-type", "s-result-info-bar")], "1,234 results"⟩]
    1234 1234 (by rfl) (by rfl)

/-! ### Top-level control flow (`__main__`, lines 180-215) -/

/-- Outcome of the body guarded by `__main__`'s `try:`: `completed` carries
the suggestion list `get_suggestions` produced and the per-keyword count
fetcher used by `discover_niches`; `interrupted` is a `KeyboardInterrupt`
during the run; `raisedError` any other unhandled exception reaching the
blanket handler. -/
inductive RunOutcome where
  | completed (suggestions : List String) (fetchCount : String → Int)
  | interrupted
  | raisedError

/-- The process exit status of `__main__`: `exit(1)` when
`discover_niches` returned nothing, `exit(0)` from the
`KeyboardInterrupt` handler, `exit(1)` from the blanket
`except Exception`, and falling off the end of the script (status 0)
otherwise.  The threshold shapes the printed report only, never the exit
status. -/
def mainExitCode (o : RunOutcome) (threshold : Int) : Nat :=
  match o with
  | .interrupted => 0
  | .raisedError => 1
  | .completed suggestions fetchCount =>
    if ((discover_niches fetchCount suggestions).1).isEmpty then 1 else 0

/-- C7: the exit status is 1 exactly when no suggestions were obtained
(`discover_niches` came back empty) or an unhandled exception occurred; it
is 0 otherwise — in particular when samples were fetched but none passed
the threshold filter, and when the operator interrupted the run. -/
theorem mainExitCode_spec (threshold : Int) :
    (∀ fetchCount, mainExitCode (.completed [] fetchCount) threshold = 1) ∧
    mainExitCode .raisedError threshold = 1 ∧
    mainExitCode .interrupted threshold = 0 ∧
    (∀ suggestions fetchCount, suggestions ≠ [] →
      mainExitCode (.completed suggestions fetchCount) threshold = 0) ∧
    (∀ suggestions fetchCount, suggestions ≠ [] →
      reportList ((discover_niches fetchCount suggestions).1) threshold = [] →
      mainExitCode (.completed suggestions fetchCount) threshold = 0) := by
  refine ⟨fun fetchCount => rfl, rfl, rfl, ?_, ?_⟩
  · intro suggestions fetchCount h
    cases suggestions with
    | nil => exact absurd rfl h
    | cons a l => simp [mainExitCode, discover_niches, nicheLoop_eq]
  · intro suggestions fetchCount h _hrep
    cases suggestions with
    | nil => exact absurd rfl h
    | cons a l => simp [mainExitCode, discover_niches, nicheLoop_eq]

/-- Witness for C7: one suggestion whose count extraction failed (`-1`), so
the report is empty, yet the exit status is 0. -/
theorem mainExitCode_spec_witness :
    reportList ((discover_niches (fun _ => (-1 : Int))
      ["coloring book for adults"]).1) 2000 = [] ∧
    mainExitCode (.completed ["coloring book for adults"]
      (fun _ => (-1 : Int))) 2000 = 0 := by
  have hrep : reportList ((discover_niches (fun _ => (-1 : Int))
      ["coloring book for adults"]).1) 2000 = [] := by
    have hfil : lowCompFilter ((discover_niches (fun _ => (-1 : Int))
        ["coloring book for adults"]).1) 2000 = [] := by decide
    unfold reportList
    rw [hfil]
    exact List.mergeSort_nil
  exact ⟨hrep, (mainExitCode_spec 2000).2.2.2.2 ["coloring book for adults"]
    (fun _ => (-1 : Int)) (by simp) hrep⟩

/-! ### The niche log file (`__main__`, lines 200-206)

`open('discovered_niches.log', 'a', encoding='utf-8')` opens in append
mode: every `f.write` adds its chunk at the end of the existing content
and nothing is truncated or rewritten.  The file is modelled as the list
of written chunks in order. -/

/-- Groups of three characters, used from the least significant digit. -/
def chunk3 : List Char → List (List Char)
  | [] => []
  | [a] => [[a]]
  | [a, b] => [[a, b]]
  | a :: b :: c :: rest => [a, b, c] :: chunk3 rest

/-- Python `f"{n:,}"` digit grouping for a natural number. -/
def commaFormatNat (n : Nat) : String :=
  ⟨(((chunk3 ((Nat.repr n).toList.reverse)).intersperse [',']).flatten).reverse⟩

/-- Python `f"{c:,}"` for an integer (the report only ever writes positive
counts, but the rendering is total). -/
def commaFormat (c : Int) : String :=
  if c < 0 then "-" ++ commaFormatNat c.natAbs else commaFormatNat c.toNat

/-- One written line: `f"{keyword} → {count:,} results\n"`. -/
def nicheLine (keyword : String) (count : Int) : String :=
  keyword ++ " → " ++ commaFormat count ++ " results\n"

/-- The header written first:
`f"\n💡 Low Competition Niches (under {args.threshold} results):\n"`. -/
def runHeader (threshold : Int) : String :=
  "\n💡 Low Competition Niches (under " ++ toString threshold ++ " results):\n"

/-- The chunks one run writes to `discovered_niches.log`: the header, then
one line per reported sample when any qualifies (in the empty-report case
the `else` branch only prints to the console and writes nothing more). -/
def runWrites (niche_results : List (String × Int)) (threshold : Int) :
    List String :=
  runHeader threshold ::
    (if (lowCompFilter niche_results threshold).isEmpty then []
     else (reportList niche_results threshold).map (fun r => nicheLine r.1 r.2))

/-- Append-mode write of one run's chunks. -/
def appendRun (file : List String) (niche_results : List (String × Int))
    (threshold : Int) : List String :=
  file ++ runWrites niche_results threshold

/-- Any number of consecutive runs appending to the same log file. -/
def appendRuns (file : List String)
    (runs : List (List (String × Int) × Int)) : List String :=
  runs.foldl (fun acc run => appendRun acc run.1 run.2) file

/-- C9: the niche log is append-only: across any number of runs the first
(length-before) chunks of the log are unchanged; each run only adds its
header and qualifying lines after them. -/
theorem appendRuns_preserves_prior (file : List String)
    (runs : List (List (String × Int) × Int)) :
    (appendRuns file runs).take file.length = file := by
  induction runs generalizing file with
  | nil =>
    simp [appendRuns]
  | cons r rs ih =>
    show (appendRuns (appendRun file r.1 r.2) rs).take file.length = file
    have h1 := ih (appendRun file r.1 r.2)
    have h2 : file.length ≤ (appendRun file r.1 r.2).length := by
      simp [appendRun]
    calc (appendRuns (appendRun file r.1 r.2) rs).take file.length
        = ((appendRuns (appendRun file r.1 r.2) rs).take
            (appendRun file r.1 r.2).length).take file.length := by
          rw [List.take_take, min_eq_left h2]
      _ = (appendRun file r.1 r.2).take file.length := by rw [h1]
      _ = file := List.take_left file (runWrites r.1 r.2)

/-! ### HTTP session configuration (`create_session`, lines 43-54) -/

/-- The arguments `create_session` passes to `urllib3`'s `Retry`. -/
structure RetryPolicy where
  total : Nat
  backoff_factor : Nat
  status_forcelist : List Nat
deriving DecidableEq

/-- `Retry(total=MAX_RETRIES, backoff_factor=BACKOFF_FACTOR,
status_forcelist=RETRY_STATUS_CODES)`. -/
def retry_strategy : RetryPolicy :=
  ⟨MAX_RETRIES, BACKOFF_FACTOR, RETRY_STATUS_CODES⟩

/-- The fixed browser-mimicking header set `HEADERS`. -/
def HEADERS : List (String × String) :=
  [("User-Agent", "Mozilla/5.0 (Windows NT 10.0; Win64; x64) AppleWebKit/537.36 (KHTML, like Gecko) Chrome/114.0.0.0 Safari/537.36"),
   ("Accept", "application/json, text/javascript, */*; q=0.01"),
   ("Accept-Language", "en-US,en;q=0.5"),
   ("DNT", "1"),
   ("Connection", "keep-alive"),
   ("Referer", "https://www.amazon.com/"),
   ("Sec-Fetch-Dest", "empty"),
   ("Sec-Fetch-Mode", "cors"),
   ("Sec-Fetch-Site", "same-site")]

/-- The session `create_session` builds: the retry adapter mounted for both
schemes plus the fixed headers. -/
structure Session where
  retries : RetryPolicy
  headers : List (String × String)

/-- `create_session`. -/
def create_session : Session :=
  ⟨retry_strategy, HEADERS⟩

/-- Timeout argument of `session.get` in `get_suggestions` (line 104). -/
def suggestionsCallTimeout : Nat := REQUEST_TIMEOUT

/-- Timeout argument of `session.get` in `get_result_count` (line 125). -/
def searchCallTimeout : Nat := REQUEST_TIMEOUT

/-- Modelled from the spec: the retry machinery driven by the session's
`Retry` object lives in the third-party `urllib3` package, outside this
repository, so its execution is taken from the spec's description: "up to
N attempts (N=3), applied only for a specific set of transient status
codes, with exponential backoff (delays grow as factor × 2^(attempt-1))".
`retryAttemptsGo policy statuses budget i` counts the requests one logical
call performs from attempt `i` on: the attempt always happens, and a
further attempt follows only while the status is in the forcelist and the
attempt budget is not exhausted. -/
def retryAttemptsGo (policy : RetryPolicy) (statuses : Nat → Nat) :
    Nat → Nat → Nat
  | 0, i => i + 1
  | budget + 1, i =>
    if policy.status_forcelist.contains (statuses i) then
      retryAttemptsGo policy statuses budget (i + 1)
    else i + 1

/-- Modelled from the spec: total number of attempts one logical request
performs when attempt `i` receives status `statuses i`. -/
def retryAttempts (policy : RetryPolicy) (statuses : Nat → Nat) : Nat :=
  retryAttemptsGo policy statuses (policy.total - 1) 0

/-- Modelled from the spec: the backoff delay before retry number
`attempt` (1-based), `factor * 2^(attempt-1)` seconds. -/
def backoffDelay (policy : RetryPolicy) (attempt : Nat) : Nat :=
  policy.backoff_factor * 2 ^ (attempt - 1)

theorem retryAttemptsGo_le (policy : RetryPolicy) (statuses : Nat → Nat) :
    ∀ budget i, retryAttemptsGo policy statuses budget i ≤ i + budget + 1 := by
  intro budget
  induction budget with
  | zero =>
    intro i
    simp [retryAttemptsGo]
  | succ b ih =>
    intro i
    cases h : policy.status_forcelist.contains (statuses i) with
    | true =>
      simp only [retryAttemptsGo, h, if_true]
      have := ih (i + 1)
      omega
    | false =>
      have h' : statuses i ∉ policy.status_forcelist := by simpa using h
      have hv : retryAttemptsGo policy statuses (b + 1) i = i + 1 := by
        simp [retryAttemptsGo, h']
      omega

/-- C8: the session configuration: at most `MAX_RETRIES = 3` attempts per
logical request, retries only for the transient codes 429/500/502/503/504
(a first status outside the list means exactly one attempt), backoff
delays `1 * 2^(attempt-1)`, and a 10-second timeout at both request call
sites.  The retry executor itself is modelled from the spec, the
configuration values from the source. -/
theorem create_session_config :
    create_session.retries.total = 3 ∧
    create_session.retries.status_forcelist = [429, 500, 502, 503, 504] ∧
    create_session.retries.backoff_factor = 1 ∧
    suggestionsCallTimeout = 10 ∧
    searchCallTimeout = 10 ∧
    (∀ statuses, retryAttempts create_session.retries statuses ≤ 3) ∧
    (∀ statuses,
      create_session.retries.status_forcelist.contains (statuses 0) = false →
      retryAttempts create_session.retries statuses = 1) ∧
    (∀ attempt, backoffDelay create_session.retries attempt = 1 * 2 ^ (attempt - 1)) := by
  refine ⟨rfl, rfl, rfl, rfl, rfl, ?_, ?_, fun attempt => rfl⟩
  · intro statuses
    have h := retryAttemptsGo_le create_session.retries statuses 2 0
    have e : retryAttempts create_session.retries statuses
        = retryAttemptsGo create_session.retries statuses 2 0 := rfl
    rw [e]
    omega
  · intro statuses h
    have e : retryAttempts create_session.retries statuses
        = retryAttemptsGo create_session.retries statuses 2 0 := rfl
    rw [e]
    have h' : statuses 0 ∉ create_session.retries.status_forcelist := by
      simpa using h
    show retryAttemptsGo create_session.retries statuses (1 + 1) 0 = 1
    simp [retryAttemptsGo, h']

/-- Witness for C8: a first response with status 200 ends the call after a
single attempt. -/
theorem create_session_config_witness :
    create_session.retries.status_forcelist.contains 200 = false ∧
    retryAttempts create_session.retries (fun _ => 200) = 1 := by
  refine ⟨by decide, ?_⟩
  exact create_session_config.2.2.2.2.2.2.1 (fun _ => 200) (by decide)

end AmazonSearch
